import Mathlib

/-!
# Deal Tracker: a verified shallow embedding of the core logic

This file embeds the core data model and operations of the deal-tracker
application (`src/app.py`) and proves the central properties of its
status-derivation, aggregation, filtering and form-validation logic.

Modelling choices:

* The two spreadsheet tables `Deals` and `Transactions` are modelled as lists
  of records inside a `Store`; row order is the sheet order, and appends go to
  the end (`worksheet.append_row`).
* Monetary amounts are Python floats in the source, always manipulated through
  `+`, `sum` and order comparisons.  They are modelled over an arbitrary
  `LinearOrderedAddCommGroup`, which covers the exact-arithmetic reading
  (`ℚ`) as well as the integer-valued test data; concrete witnesses are
  instantiated at `Int`.
* Dates are compared and shifted by whole days only, so a calendar date is
  modelled as an `Int` day number; a date column that failed to parse
  (`pd.to_datetime(..., errors="coerce")`) is `none`.
* `Status` is a free-form text cell in the sheet compared against the
  string literals `"Pending"` / `"Completed"`, so it is modelled as `String`.
* Operations that raise an uncaught Python exception when a deal id is absent
  (`.iloc[0]` / `.index[0]` on an empty selection) return `none` / are guarded
  by a `match` on the first matching row.
* A sheet with zero data rows loads as a column-less DataFrame
  (`pd.DataFrame(worksheet.get_all_records())` with an empty record list), so
  any column access on a fully empty Transactions table raises `KeyError`:
  `calculate_totals` and `get_dashboard_data` model that raised error as
  `none`.
* The dashboard text filters run `Series.str.contains(filter, case=False,
  na=False)`: pandas compiles the filter text as a case-insensitive regular
  expression (an invalid pattern raises `re.error`).  The Python
  regular-expression engine is outside this embedding, so it is abstracted as
  a parameter taking a filter text to `none` (invalid pattern) or to the row
  predicate that pattern denotes; the filtering theorems hold for every such
  parameter, hence for the real engine.
-/

namespace DealTracker

/-- A row of the `Deals` sheet, after the coercions performed by
`load_deals` (src/app.py lines 91-98): `Deal_ID` to int, the two agreed
amounts to numbers, `Start_Date` parsed to a date or `none`. -/
structure Deal (α : Type) where
  deal_id : Int
  party : String
  contractor : String
  agreed_from_party : α
  agreed_to_contractor : α
  status : String
  start_date : Option Int
deriving DecidableEq

/-- A row of the `Transactions` sheet, after the coercions performed by
`load_transactions` (src/app.py lines 101-108). -/
structure Transaction (α : Type) where
  deal_id : Int
  received_from_party : α
  paid_to_contractor : α
  date : Option Int
deriving DecidableEq

/-- The persistent state: the contents of the two sheets. -/
structure Store (α : Type) where
  deals : List (Deal α)
  transactions : List (Transaction α)
deriving DecidableEq

variable {α : Type} [LinearOrderedAddCommGroup α]

/-- `deals_df[deals_df[\x7b'Deal_ID'\x7d] == deal_id]` followed by taking the first
row (`.iloc[0]` / `.index[0]`): the first row of the `Deals` sheet with the
given id, `none` when there is no such row (the Python code would raise). -/
def firstMatch : List (Deal α) → Int → Option (Deal α)
  | [], _ => none
  | d :: rest, id => if d.deal_id == id then some d else firstMatch rest id

/-- The effect of `update_deal_status` (src/app.py lines 77-87) on the deals
list: `update_cell` overwrites the `Status` cell of the first row whose
`Deal_ID` matches (`index[0]`), leaving every other cell unchanged. -/
def updateFirst : List (Deal α) → Int → String → List (Deal α)
  | [], _, _ => []
  | d :: rest, id, st =>
    if d.deal_id == id then { d with status := st } :: rest
    else d :: updateFirst rest id st

/-- `update_deal_status(deal_id, new_status)` (src/app.py lines 77-87):
a single-cell write of the `Status` column of the first matching row. -/
def update_deal_status (s : Store α) (deal_id : Int) (new_status : String) : Store α :=
  { s with deals := updateFirst s.deals deal_id new_status }

/-- `calculate_totals(deal_id)` (src/app.py lines 115-120).  When the
Transactions sheet has no data rows at all it loads as a column-less
DataFrame, so the column access `trans_df[Deal_ID]` on line 117 raises
`KeyError`; that raised error is modelled as `none`.  Otherwise the received
and paid columns are summed over the rows whose `Deal_ID` matches (an empty
selection sums to 0). -/
def calculate_totals (s : Store α) (deal_id : Int) : Option (α × α) :=
  if s.transactions.isEmpty then none
  else
    let deal_trans := s.transactions.filter (fun t => t.deal_id == deal_id)
    some ((deal_trans.map (fun t => t.received_from_party)).sum,
      (deal_trans.map (fun t => t.paid_to_contractor)).sum)

/-- `check_and_update_status(deal_id)` (src/app.py lines 122-131).  Returns
the store after the call together with a flag recording whether a write
(`update_deal_status` call) happened; `none` models an uncaught exception:
the `IndexError` of `.iloc[0]` on line 124 when no deal has the given id, or
the `KeyError` raised by `calculate_totals` on line 125 when the
Transactions sheet is entirely empty. -/
def check_and_update_status (s : Store α) (deal_id : Int) : Option (Store α × Bool) :=
  match firstMatch s.deals deal_id with
  | none => none
  | some deal =>
    match calculate_totals s deal_id with
    | none => none
    | some totals =>
      if deal.agreed_from_party ≤ totals.1 ∧ deal.agreed_to_contractor ≤ totals.2 then
        if deal.status ≠ "Completed" then (some (update_deal_status s deal_id "Completed", true))
        else (some (s, false))
      else
        if deal.status ≠ "Pending" then (some (update_deal_status s deal_id "Pending", true))
        else (some (s, false))

/-- One row of the dashboard report produced by `get_dashboard_data`
(src/app.py lines 133-149). -/
structure DashRow (α : Type) where
  deal_id : Int
  party : String
  contractor : String
  agreed_from_party : α
  agreed_to_contractor : α
  status : String
  total_received : α
  total_paid : α
  remaining_from_party : α
  remaining_to_contractor : α
  profit : α
  start_date : Option Int
deriving DecidableEq

/-- The dashboard row derived for one deal: the left merge of the deal with
the per-deal aggregates (`groupby` then `merge(how="left").fillna(0)`) and the
derived columns of src/app.py lines 145-147.  A deal with no matching
transactions gets sums over the empty list, i.e. the `fillna(0)` zeros. -/
def dealRow (transactions : List (Transaction α)) (d : Deal α) : DashRow α :=
  let deal_trans := transactions.filter (fun t => t.deal_id == d.deal_id)
  let tr := (deal_trans.map (fun t => t.received_from_party)).sum
  let tp := (deal_trans.map (fun t => t.paid_to_contractor)).sum
  { deal_id := d.deal_id
    party := d.party
    contractor := d.contractor
    agreed_from_party := d.agreed_from_party
    agreed_to_contractor := d.agreed_to_contractor
    status := d.status
    total_received := tr
    total_paid := tp
    remaining_from_party := d.agreed_from_party - tr
    remaining_to_contractor := d.agreed_to_contractor - tp
    profit := d.agreed_from_party - d.agreed_to_contractor
    start_date := d.start_date }

/-- `get_dashboard_data()` (src/app.py lines 133-149): an empty result when
there are no deals (line 136 returns before any Transactions access);
otherwise, when the Transactions sheet has no data rows it loads as a
column-less DataFrame and `trans_df.groupby(Deal_ID)` on line 139 raises
`KeyError`, modelled as `none`; otherwise one merged row per deal row. -/
def get_dashboard_data (s : Store α) : Option (List (DashRow α)) :=
  if s.deals.isEmpty then some []
  else if s.transactions.isEmpty then none
  else some (s.deals.map (dealRow s.transactions))

/-- The quick-range branch of the Dashboard page (src/app.py lines 251-258).
The module does `from datetime import datetime`, so the name `datetime` is the
class; the expression `datetime.datetime.today()` on line 252 therefore raises
`AttributeError` before any of the range arithmetic of lines 253-258 can run,
for every option other than `"Custom"`.  The raised exception is modelled as
`Except.error`; with the option `"Custom"` the branch is skipped and the
explicit bounds pass through unchanged. -/
def applyQuickRange (date_range_option : String) (start_date end_date : Option Int) :
    Except String (Option Int × Option Int) :=
  if date_range_option ≠ "Custom" then
    Except.error "AttributeError: type object datetime has no attribute datetime"
  else
    Except.ok (start_date, end_date)

/-- `generate_deal_id()` (src/app.py lines 111-113): max existing id plus one,
or `1` when the `Deals` sheet is empty. -/
def generate_deal_id (s : Store α) : Int :=
  match s.deals.map (fun d => d.deal_id) with
  | [] => 1
  | x :: xs => xs.foldl max x + 1

/-- The fields submitted through the Add New Deal form
(src/app.py lines 160-166); a blank date picker submits `none`. -/
structure DealInput (α : Type) where
  party : String
  contractor : String
  agreed_from_party : α
  agreed_to_contractor : α
  start_date : Option Int
deriving DecidableEq

/-- The submit handler of the Add New Deal form (src/app.py lines 168-187):
validation first (line 169); only a valid submission appends a new `Pending`
deal row.  The returned flag records whether the append happened. -/
def add_deal_submit (s : Store α) (inp : DealInput α) : Store α × Bool :=
  if inp.party = "" ∨ inp.contractor = "" ∨ inp.agreed_from_party ≤ 0
      ∨ inp.agreed_to_contractor ≤ 0 ∨ inp.start_date = none then
    (s, false)
  else
    match inp.start_date with
    | none => (s, false)
    | some d =>
      ({ s with deals := s.deals ++
          [{ deal_id := generate_deal_id s
             party := inp.party
             contractor := inp.contractor
             agreed_from_party := inp.agreed_from_party
             agreed_to_contractor := inp.agreed_to_contractor
             status := "Pending"
             start_date := some d }] }, true)

/-- The fields submitted through the Update Transaction form
(src/app.py lines 200-204). -/
structure TransInput (α : Type) where
  received : α
  paid : α
  trans_date : Option Int
deriving DecidableEq

/-- The submit handler of the Update Transaction form (src/app.py
lines 206-220): both amounts zero or a missing date is rejected before any
write; otherwise the transaction row is appended and the status re-evaluated.
When `check_and_update_status` raises (deal id no longer present) the
surrounding `try` shows an error after the append already happened, which the
flag records as `false`. -/
def update_transaction_submit (s : Store α) (deal_id : Int) (inp : TransInput α) :
    Store α × Bool :=
  if inp.received = 0 ∧ inp.paid = 0 then (s, false)
  else
    match inp.trans_date with
    | none => (s, false)
    | some d =>
      let s₁ : Store α :=
        { s with transactions := s.transactions ++
            [{ deal_id := deal_id
               received_from_party := inp.received
               paid_to_contractor := inp.paid
               date := some d }] }
      match check_and_update_status s₁ deal_id with
      | some (s₂, _) => (s₂, true)
      | none => (s₁, false)

/-- The deal list offered by the Update Transaction page (src/app.py
line 192): only deals whose stored status is `Pending`. -/
def pendingDeals (s : Store α) : List (Deal α) :=
  s.deals.filter (fun d => d.status == "Pending")

/-- The whole Update Transaction page (src/app.py lines 189-220): the user
can only pick a deal from `pendingDeals` (the selectbox, modelled by an index
into that list; an out-of-range index models the empty-list branch that shows
an info message and no form), and the chosen deal id is the one the submitted
transaction row carries. -/
def update_transaction_page (s : Store α) (i : Nat) (inp : TransInput α) :
    Store α × Bool :=
  match (pendingDeals s)[i]? with
  | none => (s, false)
  | some deal => update_transaction_submit s deal.deal_id inp

/-- The non-status fields of two deal rows agree: what a `Status`-cell-only
write is allowed to touch. -/
def sameExceptStatus (d e : Deal α) : Prop :=
  e.deal_id = d.deal_id ∧ e.party = d.party ∧ e.contractor = d.contractor
  ∧ e.agreed_from_party = d.agreed_from_party
  ∧ e.agreed_to_contractor = d.agreed_to_contractor
  ∧ e.start_date = d.start_date

/-- Concrete data for witnesses: the worked example of the specification,
deal 1 with agreed amounts 1000 / 800. -/
def exDeal : Deal Int :=
  { deal_id := 1, party := "Alice", contractor := "Bob",
    agreed_from_party := 1000, agreed_to_contractor := 800,
    status := "Pending", start_date := some 0 }

/-- First example transaction: received 400, paid 300. -/
def exTxn1 : Transaction Int :=
  { deal_id := 1, received_from_party := 400, paid_to_contractor := 300, date := some 1 }

/-- Second example transaction: received 600, paid 500. -/
def exTxn2 : Transaction Int :=
  { deal_id := 1, received_from_party := 600, paid_to_contractor := 500, date := some 2 }

/-- Example store: deal 1 with no transactions. -/
def exStore0 : Store Int := { deals := [exDeal], transactions := [] }

/-- Example store: deal 1 after the first transaction. -/
def exStore1 : Store Int := { deals := [exDeal], transactions := [exTxn1] }

/-- Example store: deal 1 after both transactions. -/
def exStore2 : Store Int := { deals := [exDeal], transactions := [exTxn1, exTxn2] }

/-- Concrete transaction-form input used in witnesses. -/
def exTransInput : TransInput Int := { received := 10, paid := 5, trans_date := some 3 }

/-- The transaction row the page appends for `exTransInput` on deal 1. -/
def exNewTxn : Transaction Int :=
  { deal_id := 1, received_from_party := 10, paid_to_contractor := 5, date := some 3 }

/-- A deal-form input with an empty party name, used as a concrete invalid
submission. -/
def exBadDealInput : DealInput Int :=
  { party := "", contractor := "Bob", agreed_from_party := 5,
    agreed_to_contractor := 5, start_date := some 1 }

/-- A transaction-form input with both amounts zero, used as a concrete
invalid submission. -/
def exBadTransInput : TransInput Int := { received := 0, paid := 0, trans_date := some 1 }

/-- A transaction row belonging to a different deal (id 2): it makes the
Transactions table non-empty without matching deal 1. -/
def exTxnOther : Transaction Int :=
  { deal_id := 2, received_from_party := 7, paid_to_contractor := 7, date := some 4 }

/-- Example store: deal 1 has no matching transactions, but the Transactions
table is non-empty (it holds only `exTxnOther`). -/
def exStoreNoMatch : Store Int := { deals := [exDeal], transactions := [exTxnOther] }

/-- A `Status`-cell write touches no other field of any deal row. -/
theorem updateFirst_forall₂ (ds : List (Deal α)) (id : Int) (st : String) :
    List.Forall₂ sameExceptStatus ds (updateFirst ds id st) := by
  induction ds with
  | nil => exact List.Forall₂.nil
  | cons d rest ih =>
    by_cases hb : (d.deal_id == id) = true
    · simp only [updateFirst, hb, if_true]
      exact List.Forall₂.cons ⟨rfl, rfl, rfl, rfl, rfl, rfl⟩
        (List.forall₂_same.mpr fun x _ => ⟨rfl, rfl, rfl, rfl, rfl, rfl⟩)
    · simp only [updateFirst, hb, if_false, Bool.false_eq_true]
      exact List.Forall₂.cons ⟨rfl, rfl, rfl, rfl, rfl, rfl⟩ ih

/-- After a `Status`-cell write for `id`, the first row matching `id` is the
previously first matching row with its status replaced. -/
theorem firstMatch_updateFirst {ds : List (Deal α)} {id : Int} {d : Deal α} (st : String)
    (h : firstMatch ds id = some d) :
    firstMatch (updateFirst ds id st) id = some { d with status := st } := by
  induction ds with
  | nil => simp [firstMatch] at h
  | cons a rest ih =>
    by_cases hb : (a.deal_id == id) = true
    · simp only [firstMatch, hb, if_true, Option.some.injEq] at h
      simp only [updateFirst, hb, if_true, firstMatch, Option.some.injEq]
      rw [← h]
    · simp only [firstMatch, hb, if_false, Bool.false_eq_true] at h
      simp only [updateFirst, hb, if_false, Bool.false_eq_true, firstMatch]
      exact ih h

/-- The totals only read the `Transactions` sheet. -/
theorem calculate_totals_congr {s₁ s₂ : Store α}
    (h : s₁.transactions = s₂.transactions) (id : Int) :
    calculate_totals s₁ id = calculate_totals s₂ id := by
  simp only [calculate_totals, h]

/-- Complete description of one `check_and_update_status` call on a present
deal whose totals computation succeeds: the call succeeds, never touches the
`Transactions` sheet, changes at most status cells, writes exactly when the
stored status differs from the target status computed from the totals, and
leaves the first matching row with the target status. -/
theorem check_run (s : Store α) (id : Int) (deal : Deal α) (totals : α × α)
    (h : firstMatch s.deals id = some deal)
    (htot : calculate_totals s id = some totals) :
    ∃ s' w, check_and_update_status s id = some (s', w)
      ∧ s'.transactions = s.transactions
      ∧ List.Forall₂ sameExceptStatus s.deals s'.deals
      ∧ (w = false ↔ deal.status =
          (if deal.agreed_from_party ≤ totals.1 ∧ deal.agreed_to_contractor ≤ totals.2
            then "Completed" else "Pending"))
      ∧ (w = false → s' = s)
      ∧ firstMatch s'.deals id = some { deal with status :=
          (if deal.agreed_from_party ≤ totals.1 ∧ deal.agreed_to_contractor ≤ totals.2
            then "Completed" else "Pending") } := by
  have hgoal : check_and_update_status s id =
      (if deal.agreed_from_party ≤ totals.1 ∧ deal.agreed_to_contractor ≤ totals.2 then
        if deal.status ≠ "Completed" then some (update_deal_status s id "Completed", true)
        else some (s, false)
      else
        if deal.status ≠ "Pending" then some (update_deal_status s id "Pending", true)
        else some (s, false)) := by
    simp only [check_and_update_status, h, htot]
  by_cases hm : deal.agreed_from_party ≤ totals.1 ∧ deal.agreed_to_contractor ≤ totals.2
  · rw [if_pos hm] at hgoal
    by_cases hs : deal.status = "Completed"
    · rw [if_neg (not_not_intro hs)] at hgoal
      refine ⟨s, false, hgoal, rfl,
        List.forall₂_same.mpr fun x _ => ⟨rfl, rfl, rfl, rfl, rfl, rfl⟩,
        ?_, fun _ => rfl, ?_⟩
      · rw [if_pos hm]; exact iff_of_true rfl hs
      · rw [if_pos hm, ← hs]; exact h
    · rw [if_pos hs] at hgoal
      refine ⟨update_deal_status s id "Completed", true, hgoal, rfl,
        updateFirst_forall₂ s.deals id "Completed",
        ?_, fun hw => absurd hw (by simp), ?_⟩
      · rw [if_pos hm]; exact iff_of_false (by simp) hs
      · rw [if_pos hm]; exact firstMatch_updateFirst "Completed" h
  · rw [if_neg hm] at hgoal
    by_cases hs : deal.status = "Pending"
    · rw [if_neg (not_not_intro hs)] at hgoal
      refine ⟨s, false, hgoal, rfl,
        List.forall₂_same.mpr fun x _ => ⟨rfl, rfl, rfl, rfl, rfl, rfl⟩,
        ?_, fun _ => rfl, ?_⟩
      · rw [if_neg hm]; exact iff_of_true rfl hs
      · rw [if_neg hm, ← hs]; exact h
    · rw [if_pos hs] at hgoal
      refine ⟨update_deal_status s id "Pending", true, hgoal, rfl,
        updateFirst_forall₂ s.deals id "Pending",
        ?_, fun hw => absurd hw (by simp), ?_⟩
      · rw [if_neg hm]; exact iff_of_false (by simp) hs
      · rw [if_neg hm]; exact firstMatch_updateFirst "Pending" h

/-- Appending a single transaction row to a ledger whose totals computation
succeeds shifts each total by the amounts of that row when its `Deal_ID`
matches and by nothing otherwise (and the computation still succeeds). -/
theorem calculate_totals_append (s : Store α) (t : Transaction α) (id : Int)
    (totals : α × α) (htot : calculate_totals s id = some totals) :
    calculate_totals { s with transactions := s.transactions ++ [t] } id
      = some (totals.1 + (if t.deal_id == id then t.received_from_party else 0),
          totals.2 + (if t.deal_id == id then t.paid_to_contractor else 0)) := by
  obtain ⟨tr, tp⟩ := totals
  simp only [calculate_totals] at htot ⊢
  split at htot
  · exact absurd htot (by simp)
  · have hne : (s.transactions ++ [t]).isEmpty = false := by
      cases s.transactions <;> rfl
    rw [if_neg (by simp [hne])]
    injection htot with h₂
    injection h₂ with h₃ h₄
    rw [← h₃, ← h₄]
    by_cases ht : (t.deal_id == id) = true
    · simp [List.filter_append, ht]
    · simp [List.filter_append, ht]

/-! ## Claim theorems -/

/-- Claim C1: for every deal present in the `Deals` table on which the call
completes (the totals computation succeeds, i.e. the Transactions sheet has
at least one row), `check_and_update_status` returns, and afterwards the
stored status of that deal is `Completed` when
`total_received >= agreed_from_party` and `total_paid >= agreed_to_contractor`
(totals summed over all transactions with that deal id), and `Pending`
otherwise. -/
theorem C1_status_follows_totals (s : Store α) (deal_id : Int) (deal : Deal α)
    (totals : α × α)
    (h : firstMatch s.deals deal_id = some deal)
    (htot : calculate_totals s deal_id = some totals) :
    ∃ s' w, check_and_update_status s deal_id = some (s', w)
      ∧ ∃ deal', firstMatch s'.deals deal_id = some deal'
          ∧ deal'.status =
            (if deal.agreed_from_party ≤ totals.1 ∧ deal.agreed_to_contractor ≤ totals.2
              then "Completed" else "Pending") := by
  obtain ⟨s', w, h1, _, _, _, _, hfm⟩ := check_run s deal_id deal totals h htot
  exact ⟨s', w, h1, _, hfm, rfl⟩

/-- Witness for C1 at the worked example of the specification: deal 1 with
agreed amounts 1000 / 800; after transaction (400, 300) alone the status
stays `Pending` with no write, and upon the second transaction (600, 500)
the totals are (1000, 800) and the status becomes `Completed`. -/
theorem C1_status_follows_totals_witness :
    firstMatch exStore2.deals 1 = some exDeal
    ∧ calculate_totals exStore2 1 = some (1000, 800)
    ∧ (∃ s' w, check_and_update_status exStore2 1 = some (s', w)
        ∧ ∃ deal', firstMatch s'.deals 1 = some deal'
            ∧ deal'.status =
              (if exDeal.agreed_from_party ≤ (1000 : Int)
                  ∧ exDeal.agreed_to_contractor ≤ (800 : Int)
                then "Completed" else "Pending"))
    ∧ check_and_update_status exStore1 1 = some (exStore1, false)
    ∧ check_and_update_status exStore2 1
        = some ({ exStore2 with deals := [{ exDeal with status := "Completed" }] }, true) :=
  ⟨by decide, by decide,
    C1_status_follows_totals exStore2 1 exDeal (1000, 800) (by decide) (by decide),
    by decide, by decide⟩

/-- Claim C2: `check_and_update_status` writes (calls `update_deal_status`)
exactly when the computed target status differs from the stored one, the
write changes nothing but status cells, a no-write call leaves the store
untouched, and a second invocation on the resulting store with the
transaction ledger unchanged performs no write and no state change. -/
theorem C2_check_idempotent (s : Store α) (deal_id : Int) (deal : Deal α)
    (totals : α × α)
    (h : firstMatch s.deals deal_id = some deal)
    (htot : calculate_totals s deal_id = some totals) :
    ∃ s₁ w₁, check_and_update_status s deal_id = some (s₁, w₁)
      ∧ (w₁ = false ↔ deal.status =
          (if deal.agreed_from_party ≤ totals.1 ∧ deal.agreed_to_contractor ≤ totals.2
            then "Completed" else "Pending"))
      ∧ (w₁ = false → s₁ = s)
      ∧ List.Forall₂ sameExceptStatus s.deals s₁.deals
      ∧ check_and_update_status s₁ deal_id = some (s₁, false) := by
  obtain ⟨s₁, w₁, h1, htr, hfa, hiff, hns, hfm⟩ := check_run s deal_id deal totals h htot
  refine ⟨s₁, w₁, h1, hiff, hns, hfa, ?_⟩
  have hct : calculate_totals s₁ deal_id = some totals :=
    (calculate_totals_congr htr deal_id).trans htot
  obtain ⟨s₂, w₂, h2, _, _, hiff₂, hns₂, _⟩ := check_run s₁ deal_id _ totals hfm hct
  have hw₂ : w₂ = false := hiff₂.mpr rfl
  rw [hw₂, hns₂ hw₂] at h2
  exact h2

/-- Witness for C2: on the example store after both transactions, the first
call writes `Completed` and the second call on the result is a no-op. -/
theorem C2_check_idempotent_witness :
    firstMatch exStore2.deals 1 = some exDeal
    ∧ calculate_totals exStore2 1 = some (1000, 800)
    ∧ (∃ s₁ w₁, check_and_update_status exStore2 1 = some (s₁, w₁)
        ∧ (w₁ = false ↔ exDeal.status =
            (if exDeal.agreed_from_party ≤ (1000 : Int)
                ∧ exDeal.agreed_to_contractor ≤ (800 : Int)
              then "Completed" else "Pending"))
        ∧ (w₁ = false → s₁ = exStore2)
        ∧ List.Forall₂ sameExceptStatus exStore2.deals s₁.deals
        ∧ check_and_update_status s₁ 1 = some (s₁, false)) :=
  ⟨by decide, by decide,
    C2_check_idempotent exStore2 1 exDeal (1000, 800) (by decide) (by decide)⟩

/-- Claim C3: once both totals of a present deal meet the agreed amounts,
appending any transaction with non-negative amounts and re-evaluating leaves
the stored status `Completed`; the append-then-re-evaluate step never moves a
deal whose totals are met away from `Completed`. -/
theorem C3_append_keeps_completed (s : Store α) (deal_id : Int) (deal : Deal α)
    (t : Transaction α) (totals : α × α)
    (h : firstMatch s.deals deal_id = some deal)
    (htot : calculate_totals s deal_id = some totals)
    (hr : deal.agreed_from_party ≤ totals.1)
    (hp : deal.agreed_to_contractor ≤ totals.2)
    (ht1 : 0 ≤ t.received_from_party) (ht2 : 0 ≤ t.paid_to_contractor) :
    ∃ s' w, check_and_update_status
        { s with transactions := s.transactions ++ [t] } deal_id = some (s', w)
      ∧ ∃ deal', firstMatch s'.deals deal_id = some deal' ∧ deal'.status = "Completed" := by
  have hfm : firstMatch ({ s with transactions := s.transactions ++ [t] } : Store α).deals
      deal_id = some deal := h
  have htot' := calculate_totals_append s t deal_id totals htot
  obtain ⟨s', w, h1, _, _, _, _, hfm'⟩ :=
    check_run { s with transactions := s.transactions ++ [t] } deal_id deal _ hfm htot'
  have h0r : (0 : α) ≤ (if t.deal_id == deal_id then t.received_from_party else 0) := by
    split
    · exact ht1
    · exact le_refl 0
  have h0p : (0 : α) ≤ (if t.deal_id == deal_id then t.paid_to_contractor else 0) := by
    split
    · exact ht2
    · exact le_refl 0
  have hmeet : deal.agreed_from_party
        ≤ totals.1 + (if t.deal_id == deal_id then t.received_from_party else 0)
      ∧ deal.agreed_to_contractor
        ≤ totals.2 + (if t.deal_id == deal_id then t.paid_to_contractor else 0) :=
    ⟨le_trans hr (le_add_of_nonneg_right h0r),
      le_trans hp (le_add_of_nonneg_right h0p)⟩
  rw [if_pos hmeet] at hfm'
  exact ⟨s', w, h1, _, hfm', rfl⟩

/-- Witness for C3: the completed example deal absorbs one more non-negative
transaction without leaving `Completed`. -/
theorem C3_append_keeps_completed_witness :
    firstMatch exStore2.deals 1 = some exDeal
    ∧ calculate_totals exStore2 1 = some (1000, 800)
    ∧ exDeal.agreed_from_party ≤ (1000 : Int)
    ∧ exDeal.agreed_to_contractor ≤ (800 : Int)
    ∧ (0 : Int) ≤ exNewTxn.received_from_party
    ∧ (0 : Int) ≤ exNewTxn.paid_to_contractor
    ∧ (∃ s' w, check_and_update_status
          { exStore2 with transactions := exStore2.transactions ++ [exNewTxn] } 1
          = some (s', w)
        ∧ ∃ deal', firstMatch s'.deals 1 = some deal' ∧ deal'.status = "Completed") :=
  ⟨by decide, by decide, by decide, by decide, by decide, by decide,
    C3_append_keeps_completed exStore2 1 exDeal exNewTxn (1000, 800)
      (by decide) (by decide) (by decide) (by decide) (by decide) (by decide)⟩

/-- Claim C4 (code bug): the claim says `calculate_totals` returns `(0, 0)`
for a deal with no matching transactions and that the status stays
`Pending`.  That is the documented intent, and it holds whenever the
Transactions sheet has at least one (non-matching) row; but on an entirely
empty Transactions sheet the source instead raises `KeyError` at
`trans_df[Deal_ID]` (src/app.py line 117), because the empty sheet loads as
a column-less DataFrame.  This theorem evaluates the embedded code at both
states: the crash (`none`) on the empty sheet, and the claimed behaviour
(totals `some (0, 0)`, status left `Pending` with no write) on a non-empty
sheet with no matching row. -/
theorem C4_no_transactions_keyerror :
    calculate_totals exStore0 1 = none
    ∧ check_and_update_status exStore0 1 = none
    ∧ exStoreNoMatch.transactions.filter (fun t => t.deal_id == 1) = []
    ∧ calculate_totals exStoreNoMatch 1 = some (0, 0)
    ∧ check_and_update_status exStoreNoMatch 1 = some (exStoreNoMatch, false) :=
  ⟨rfl, rfl, by decide, by decide, by decide⟩

/-- Claim C5 (code bug): the claim says the dashboard has exactly one row
per deal regardless of the contents of the Transactions table, and is empty
exactly when `Deals` is empty.  With no deals at all the source does return
an empty result before touching the Transactions table, and with at least
one transaction row the left join keeps every deal with zero aggregates when
unmatched; but with deals present and an entirely empty Transactions sheet
the source raises `KeyError` at `trans_df.groupby(Deal_ID)` (src/app.py
line 139), because the empty sheet loads as a column-less DataFrame.  This
theorem evaluates the embedded code at all these states; the crash is the
`none` at `exStore0`. -/
theorem C5_dashboard_empty_transactions_keyerror :
    get_dashboard_data ({ deals := [], transactions := [] } : Store Int) = some []
    ∧ get_dashboard_data ({ deals := [], transactions := [exTxnOther] } : Store Int) = some []
    ∧ get_dashboard_data exStore0 = none
    ∧ get_dashboard_data exStoreNoMatch = some [dealRow exStoreNoMatch.transactions exDeal]
    ∧ (dealRow exStoreNoMatch.transactions exDeal).deal_id = exDeal.deal_id
    ∧ (dealRow exStoreNoMatch.transactions exDeal).total_received = 0
    ∧ (dealRow exStoreNoMatch.transactions exDeal).total_paid = 0 :=
  ⟨rfl, rfl, rfl, by decide, by decide, by decide, by decide⟩

/-- Claim C8: the quick-range selector never reaches the documented range
arithmetic: every non-Custom option raises `AttributeError` at
`datetime.datetime.today()` (src/app.py line 252, with `datetime` bound to
the class by the import on line 5), while `Custom` leaves the explicit
bounds untouched. -/
theorem C8_quick_range_raises :
    (∀ sd ed : Option Int, applyQuickRange "Last Week" sd ed
        = Except.error "AttributeError: type object datetime has no attribute datetime")
    ∧ (∀ sd ed : Option Int, applyQuickRange "Last Month" sd ed
        = Except.error "AttributeError: type object datetime has no attribute datetime")
    ∧ (∀ sd ed : Option Int, applyQuickRange "Last Year" sd ed
        = Except.error "AttributeError: type object datetime has no attribute datetime")
    ∧ (∀ sd ed : Option Int, applyQuickRange "Custom" sd ed = Except.ok (sd, ed)) :=
  ⟨fun _ _ => rfl, fun _ _ => rfl, fun _ _ => rfl, fun _ _ => rfl⟩

/-- Claim C9: validation precedes mutation: an add-deal submission with an
empty party, an empty contractor, a non-positive agreed amount or a missing
start date, and a transaction submission with both amounts zero or a missing
date, leave the store exactly as it was and report failure. -/
theorem C9_validation_before_mutation (s : Store α) (inp : DealInput α)
    (deal_id : Int) (tinp : TransInput α) :
    ((inp.party = "" ∨ inp.contractor = "" ∨ inp.agreed_from_party ≤ 0
        ∨ inp.agreed_to_contractor ≤ 0 ∨ inp.start_date = none) →
      add_deal_submit s inp = (s, false))
    ∧ (((tinp.received = 0 ∧ tinp.paid = 0) ∨ tinp.trans_date = none) →
      update_transaction_submit s deal_id tinp = (s, false)) := by
  constructor
  · intro hbad
    simp only [add_deal_submit, if_pos hbad]
  · rintro (hz | hdt)
    · simp only [update_transaction_submit, if_pos hz]
    · by_cases hz : tinp.received = 0 ∧ tinp.paid = 0
      · simp only [update_transaction_submit, if_pos hz]
      · simp only [update_transaction_submit, if_neg hz, hdt]

/-- Witness for C9: a submission with an empty party name and a transaction
with both amounts zero each leave the example store unchanged. -/
theorem C9_validation_before_mutation_witness :
    ((exBadDealInput.party = "" ∨ exBadDealInput.contractor = ""
        ∨ exBadDealInput.agreed_from_party ≤ 0
        ∨ exBadDealInput.agreed_to_contractor ≤ 0 ∨ exBadDealInput.start_date = none)
      ∧ add_deal_submit exStore0 exBadDealInput = (exStore0, false))
    ∧ (((exBadTransInput.received = 0 ∧ exBadTransInput.paid = 0)
        ∨ exBadTransInput.trans_date = none)
      ∧ update_transaction_submit exStore0 1 exBadTransInput = (exStore0, false)) :=
  ⟨⟨Or.inl rfl,
      (C9_validation_before_mutation exStore0 exBadDealInput 1 exBadTransInput).1
        (Or.inl rfl)⟩,
    ⟨Or.inl ⟨rfl, rfl⟩,
      (C9_validation_before_mutation exStore0 exBadDealInput 1 exBadTransInput).2
        (Or.inl ⟨rfl, rfl⟩)⟩⟩

/-- A `check_and_update_status` call that returns never modifies the
`Transactions` sheet. -/
theorem check_preserves_transactions (s : Store α) (id : Int) (s₂ : Store α) (w : Bool)
    (h : check_and_update_status s id = some (s₂, w)) :
    s₂.transactions = s.transactions := by
  cases hm : firstMatch s.deals id with
  | none =>
    simp only [check_and_update_status, hm] at h
    exact Option.noConfusion h
  | some deal =>
    cases hct : calculate_totals s id with
    | none =>
      simp only [check_and_update_status, hm, hct] at h
      exact Option.noConfusion h
    | some totals =>
      simp only [check_and_update_status, hm, hct] at h
      split_ifs at h <;>
        (injection h with h₂; injection h₂ with h₃ h₄; rw [← h₃]) <;> rfl

/-- Claim C10: every transaction row present after an Update Transaction page
interaction either already existed or targets a deal whose stored status was
`Pending` when the append happened: the page offers only `Pending` deals for
selection. -/
theorem C10_transactions_target_pending (s : Store α) (i : Nat) (inp : TransInput α)
    (t : Transaction α)
    (ht : t ∈ (update_transaction_page s i inp).1.transactions) :
    t ∈ s.transactions
      ∨ ∃ deal, deal ∈ s.deals ∧ deal.status = "Pending" ∧ t.deal_id = deal.deal_id := by
  unfold update_transaction_page at ht
  cases hp : (pendingDeals s)[i]? with
  | none => simp only [hp] at ht; exact Or.inl ht
  | some deal =>
    simp only [hp] at ht
    obtain ⟨hlt, hget⟩ := List.getElem?_eq_some_iff.mp hp
    have hmem : deal ∈ pendingDeals s := hget ▸ List.getElem_mem hlt
    have hdm := List.mem_filter.mp hmem
    have hstat : deal.status = "Pending" := by simpa using hdm.2
    simp only [update_transaction_submit] at ht
    by_cases hz : inp.received = 0 ∧ inp.paid = 0
    · rw [if_pos hz] at ht; exact Or.inl ht
    · rw [if_neg hz] at ht
      cases hdt : inp.trans_date with
      | none => simp only [hdt] at ht; exact Or.inl ht
      | some d =>
        simp only [hdt] at ht
        have hts : t ∈ s.transactions ++
            [({ deal_id := deal.deal_id, received_from_party := inp.received,
                paid_to_contractor := inp.paid, date := some d } : Transaction α)] := by
          cases hc : check_and_update_status
              { s with transactions := s.transactions ++
                  [{ deal_id := deal.deal_id, received_from_party := inp.received,
                     paid_to_contractor := inp.paid, date := some d }] } deal.deal_id with
          | none => simp only [hc] at ht; exact ht
          | some p =>
            obtain ⟨s₂, w₂⟩ := p
            simp only [hc] at ht
            rwa [check_preserves_transactions _ _ _ _ hc] at ht
        rcases List.mem_append.mp hts with hold | hnew
        · exact Or.inl hold
        · refine Or.inr ⟨deal, hdm.1, hstat, ?_⟩
          rw [List.mem_singleton.mp hnew]

/-- Witness for C10: on the example store the page appends `exNewTxn`, and
that row indeed targets deal 1, which is `Pending`. -/
theorem C10_transactions_target_pending_witness :
    exNewTxn ∈ (update_transaction_page exStore0 0 exTransInput).1.transactions
    ∧ (exNewTxn ∈ exStore0.transactions
        ∨ ∃ deal, deal ∈ exStore0.deals ∧ deal.status = "Pending"
            ∧ exNewTxn.deal_id = deal.deal_id) :=
  ⟨by decide,
    C10_transactions_target_pending exStore0 0 exTransInput exNewTxn (by decide)⟩

end DealTracker
